import Mathlib

/-!
Verification of `celer/dropin_sklearn.py` against its design specification.

The file under `src/` contains the two scikit-learn drop-in estimator classes
`Lasso` and `LassoCV`.  Both are thin wrappers: their constructors store the
solver configuration on the instance, and their `path` methods forward the
stored configuration, the data `(X, y)` and the alpha grid to the external
solver `celer_path` (module `celer.homotopy`, which is not part of the present
sources).  We embed the wrapper code faithfully: the solver appears as an
explicit function argument (so all statements quantify over its behaviour),
Python attribute assignment becomes record construction and record update,
the single solver call made by each `path` body is recorded in a `calls`
trace, and the post-call instance state is returned explicitly (the Python
bodies assign no attributes, so the post state equals the pre state).

Where the external solver itself decides a claim (configuration validation,
verbosity, duality-gap optimality), the corresponding definitions are marked
`Modelled from the spec:` and follow the specification text for the missing
module.
-/

/-- The solver configuration record handed to `celer_path` by both `path`
methods, field for field the keyword arguments of the call in
`dropin_sklearn.py` (`max_iter`, `gap_freq`, `max_epochs`, `p0`, `verbose`,
`tol`, `prune`).  Python floats are modelled as rationals, Python ints as
integers. -/
structure CelerConfig where
  max_iter : Int
  gap_freq : Int
  max_epochs : Int
  p0 : Int
  verbose : Int
  tol : ℚ
  prune : Int

/-- The triple returned by `celer_path` to the wrappers:
`(alphas, coefs, dual_gaps)` — the alpha grid, the coefficient matrix
(one coefficient vector per alpha) and the per-alpha duality gaps. -/
abbrev CelerOut : Type := List ℚ × List (List ℚ) × List ℚ

/-- A behaviour of the external solver `celer_path`: a function of the design
matrix, the response vector, the alpha grid and the configuration.  The matrix
and vector types are abstract (`M`, `V`) because the wrapper code never
inspects them. -/
abbrev CelerSolver (M V : Type) : Type := M → V → List ℚ → CelerConfig → CelerOut

/-- Instance state of the `Lasso` estimator after `__init__`: the attributes
stored by the sklearn super-constructor (`alpha`, `tol`, `max_iter`,
`fit_intercept`) and the attributes assigned in the subclass body. -/
structure LassoState where
  alpha : ℚ
  tol : ℚ
  max_iter : Int
  verbose : Int
  gap_freq : Int
  max_epochs : Int
  p0 : Int
  prune : Int
  fit_intercept : Bool
  return_n_iter : Bool

/-- State produced by the external sklearn `Lasso` constructor called via
`super().__init__(alpha=alpha, tol=tol, max_iter=max_iter)`: it stores the
three passed values and defaults `fit_intercept` to `True`; the celer-specific
attributes do not exist yet in Python, here they carry placeholder values that
`Lasso.init` overwrites before returning. -/
def sklearnLassoSuper (alpha : ℚ) (tol : ℚ) (max_iter : Int) : LassoState :=
  { alpha := alpha, tol := tol, max_iter := max_iter,
    verbose := 0, gap_freq := 0, max_epochs := 0, p0 := 0, prune := 0,
    fit_intercept := true, return_n_iter := false }

/-- `Lasso.__init__` (dropin_sklearn.py lines 91-101): call the sklearn
super-constructor with `alpha`, `tol`, `max_iter`, then assign `verbose`,
`gap_freq`, `max_epochs`, `p0`, `prune`, and finally force
`fit_intercept = False` and `return_n_iter = True`. -/
def Lasso.init (alpha : ℚ) (max_iter : Int) (gap_freq : Int) (max_epochs : Int)
    (p0 : Int) (verbose : Int) (tol : ℚ) (prune : Int) : LassoState :=
  { sklearnLassoSuper alpha tol max_iter with
    verbose := verbose, gap_freq := gap_freq, max_epochs := max_epochs,
    p0 := p0, prune := prune, fit_intercept := false, return_n_iter := true }

/-- The configuration a `Lasso` instance passes to `celer_path` in `path`
(dropin_sklearn.py lines 104-107): exactly its stored attributes. -/
def Lasso.celerConfig (self : LassoState) : CelerConfig :=
  { max_iter := self.max_iter, gap_freq := self.gap_freq,
    max_epochs := self.max_epochs, p0 := self.p0, verbose := self.verbose,
    tol := self.tol, prune := self.prune }

/-- One call to the external solver, as observed at the call site:
the arguments the wrapper passed. -/
structure SolverCall (M V : Type) where
  X : M
  y : V
  alphas : List ℚ
  cfg : CelerConfig

/-- Everything observable about one execution of `Lasso.path`: the returned
4-tuple, the instance state after the call, and the trace of solver calls the
body performed. -/
structure PathReturn (M V : Type) where
  result : List ℚ × List (List ℚ) × List ℚ × List Nat
  post : LassoState
  calls : List (SolverCall M V)

/-- `Lasso.path` (dropin_sklearn.py lines 103-108): call `celer_path` with
`X`, `y`, `alphas` and the stored configuration, and return
`(alphas, coefs, dual_gaps, [1])`.  The body performs exactly one solver call
and assigns no attributes, so the trace is a singleton and the post state is
the input state. -/
def Lasso.path {M V : Type} (celer_path : CelerSolver M V) (self : LassoState)
    (X : M) (y : V) (alphas : List ℚ) : PathReturn M V :=
  let cfg := Lasso.celerConfig self
  let out := celer_path X y alphas cfg
  { result := (out.1, out.2.1, out.2.2, [1]),
    post := self,
    calls := [{ X := X, y := y, alphas := alphas, cfg := cfg }] }

/-- Instance state of the `LassoCV` estimator after `__init__`. -/
structure LassoCVState where
  eps : ℚ
  n_alphas : Int
  alphas : Option (List ℚ)
  max_iter : Int
  tol : ℚ
  cv : Option Int
  fit_intercept : Bool
  verbose : Int
  gap_freq : Int
  max_epochs : Int
  p0 : Int
  prune : Int
  return_n_iter : Bool

/-- State produced by the external sklearn `LassoCV` constructor called via
`super().__init__(eps=..., n_alphas=..., alphas=..., max_iter=..., tol=...,
cv=..., fit_intercept=fit_intercept, verbose=...)`: it stores the passed
values — in particular `fit_intercept` exactly as passed.  The celer-specific
attributes do not exist yet; they carry placeholder values that
`LassoCV.init` overwrites before returning. -/
def sklearnLassoCVSuper (eps : ℚ) (n_alphas : Int) (alphas : Option (List ℚ))
    (max_iter : Int) (tol : ℚ) (cv : Option Int) (fit_intercept : Bool)
    (verbose : Int) : LassoCVState :=
  { eps := eps, n_alphas := n_alphas, alphas := alphas, max_iter := max_iter,
    tol := tol, cv := cv, fit_intercept := fit_intercept, verbose := verbose,
    gap_freq := 0, max_epochs := 0, p0 := 0, prune := 0,
    return_n_iter := false }

/-- `LassoCV.__init__` (dropin_sklearn.py lines 190-203): call the sklearn
super-constructor (which stores `fit_intercept` as passed), then assign
`gap_freq`, `max_epochs`, `p0`, `prune`, and finally force
`fit_intercept = False` and `return_n_iter = True`.  The `normalize` and
`precompute` parameters are accepted but never used by the body. -/
def LassoCV.init (eps : ℚ) (n_alphas : Int) (alphas : Option (List ℚ))
    (fit_intercept : Bool) (max_iter : Int) (tol : ℚ) (cv : Option Int)
    (verbose : Int) (gap_freq : Int) (max_epochs : Int) (p0 : Int)
    (prune : Int) (normalize : Bool) (precompute : String) : LassoCVState :=
  { sklearnLassoCVSuper eps n_alphas alphas max_iter tol cv fit_intercept
      verbose with
    gap_freq := gap_freq, max_epochs := max_epochs, p0 := p0, prune := prune,
    fit_intercept := false, return_n_iter := true }

/-- The configuration a `LassoCV` instance passes to `celer_path` in `path`
(dropin_sklearn.py lines 206-209): exactly its stored attributes. -/
def LassoCV.celerConfig (self : LassoCVState) : CelerConfig :=
  { max_iter := self.max_iter, gap_freq := self.gap_freq,
    max_epochs := self.max_epochs, p0 := self.p0, verbose := self.verbose,
    tol := self.tol, prune := self.prune }

/-- Everything observable about one execution of `LassoCV.path`: the returned
3-tuple, the post state, and the trace of solver calls. -/
structure PathReturnCV (M V : Type) where
  result : List ℚ × List (List ℚ) × List ℚ
  post : LassoCVState
  calls : List (SolverCall M V)

/-- `LassoCV.path` (dropin_sklearn.py lines 205-210): call `celer_path` with
`X`, `y`, `alphas` and the stored configuration, and return
`(alphas, coefs, dual_gaps)` unchanged. -/
def LassoCV.path {M V : Type} (celer_path : CelerSolver M V)
    (self : LassoCVState) (X : M) (y : V) (alphas : List ℚ) :
    PathReturnCV M V :=
  let cfg := LassoCV.celerConfig self
  let out := celer_path X y alphas cfg
  { result := (out.1, out.2.1, out.2.2),
    post := self,
    calls := [{ X := X, y := y, alphas := alphas, cfg := cfg }] }

/-! ### Spec-modelled aspects of the external solver `celer_path`

The module `celer.homotopy` is not among the present sources; the following
definitions model, from the specification text, exactly the aspects of it
that the claims need: which configuration fields the numerical core may
depend on, configuration validation, and the per-alpha outer-iteration
counts of the path orchestrator. -/

/-- The configuration visible to the numerical core of the solver: all fields
of `CelerConfig` except `verbose`. -/
structure NumConfig where
  max_iter : Int
  gap_freq : Int
  max_epochs : Int
  p0 : Int
  tol : ℚ
  prune : Int

/-- Projection of a solver configuration onto its numerical part, dropping
`verbose`. -/
def CelerConfig.numPart (cfg : CelerConfig) : NumConfig :=
  { max_iter := cfg.max_iter, gap_freq := cfg.gap_freq,
    max_epochs := cfg.max_epochs, p0 := cfg.p0, tol := cfg.tol,
    prune := cfg.prune }

/-- Modelled from the spec: `celer_path` (module `celer.homotopy`, not under
`src/`) treats verbosity as pure observability — "Verbosity levels control
only observability output (per-epoch/per-outer-iteration gap logging); must
have zero effect on numerical results."  The numerical triple is produced by
a core that never sees `verbose`; `verbose` only selects the log lines
emitted alongside it. -/
def celer_path_logged {M V : Type}
    (core : M → V → List ℚ → NumConfig → CelerOut)
    (logOf : Int → CelerOut → List String)
    (X : M) (y : V) (alphas : List ℚ) (cfg : CelerConfig) :
    CelerOut × List String :=
  let out := core X y alphas (CelerConfig.numPart cfg)
  (out, logOf cfg.verbose out)

/-- Errors raised by the solver before any solving work. -/
inductive CelerError where
  | configError : String → CelerError

/-- Modelled from the spec: configuration validation in `celer_path`
(module `celer.homotopy`, not under `src/`).  Spec section 7: "Configuration
error (e.g. negative alpha, non-positive tol, empty feature set): rejected
before any solve begins."  `nFeatures` is the feature count of `X`; the
second component counts the subproblem solves actually performed, so a
rejected configuration reports `0` — no coordinate-descent work happened. -/
def celer_path_checked {M V : Type} (core : CelerSolver M V) (nFeatures : Nat)
    (X : M) (y : V) (alphas : List ℚ) (cfg : CelerConfig) :
    Except CelerError CelerOut × Nat :=
  if alphas.any (fun a => decide (a < 0)) then
    (Except.error (CelerError.configError "negative alpha"), 0)
  else if cfg.tol ≤ 0 then
    (Except.error (CelerError.configError "non-positive tol"), 0)
  else if nFeatures = 0 then
    (Except.error (CelerError.configError "empty feature set"), 0)
  else
    (Except.ok (core X y alphas cfg), 1)

/-- `Lasso.path` composed with the validating model of `celer_path`: the same
wrapper body as `Lasso.path`, with the solver's exception propagated to the
caller (the Python body does not catch anything) and the solve count carried
through. -/
def Lasso.pathChecked {M V : Type} (core : CelerSolver M V) (nFeatures : Nat)
    (self : LassoState) (X : M) (y : V) (alphas : List ℚ) :
    Except CelerError (List ℚ × List (List ℚ) × List ℚ × List Nat) × Nat :=
  let cfg := Lasso.celerConfig self
  match celer_path_checked core nFeatures X y alphas cfg with
  | (Except.error e, k) => (Except.error e, k)
  | (Except.ok out, k) => (Except.ok (out.1, out.2.1, out.2.2, [1]), k)

/-- `true` exactly when the computation returned normally. -/
def exceptIsOk {α : Type} : Except CelerError α → Bool
  | Except.ok _ => true
  | Except.error _ => false

/-- Modelled from the spec: the path orchestrator of `celer_path`
(module `celer.homotopy`, not under `src/`) drives each alpha subproblem
through some number of outer iterations (spec section 4.4), but the triple it
hands back to the wrappers carries only alphas, coefficients and gaps.  A
behaviour therefore records its per-alpha outer-iteration counts as a
separate observation. -/
structure SolverBehavior (M V : Type) where
  run : CelerSolver M V
  outerIters : M → V → List ℚ → CelerConfig → List Nat

/-- A concrete solver behaviour whose (spec-modelled) outer-iteration count
is 2 for every alpha in the grid. -/
def twoIterBehavior : SolverBehavior Unit Unit :=
  { run := fun _ _ alphas _ => (alphas, [[0]], [0]),
    outerIters := fun _ _ alphas _ => alphas.map (fun _ => 2) }

/-- A concrete solver behaviour used for witnesses: it echoes the alpha grid
and produces a fixed coefficient matrix and gap list. -/
def demoCore : CelerSolver Unit Unit :=
  fun _ _ alphas _ => (alphas, [[1]], [0])

/-! ### The Lasso objective, the dual point, and weak duality

The primal objective is stated in the source itself (the `Lasso` docstring,
dropin_sklearn.py lines 10-12):
`(1 / (2 * n_samples)) * ||y - Xw||^2_2 + alpha * ||w||_1`.
The dual objective and the dual feasibility constraint are modelled from the
spec (section 4.2): a dual point `theta` is feasible when
`|X^T theta|_inf <= alpha`, and
`D(theta) = (1/2n)(||y||^2 - n^2 ||theta - y/n||^2)`. -/

/-- Dot product of two sample-indexed vectors. -/
def dotv {n : Nat} (u v : Fin n → ℚ) : ℚ := ∑ i, u i * v i

/-- Matrix-vector product `X w`. -/
def matVec {n p : Nat} (X : Fin n → Fin p → ℚ) (w : Fin p → ℚ) : Fin n → ℚ :=
  fun i => ∑ j, X i j * w j

/-- The residual vector `y - X w`, the quantity the solver keeps in sync
with `w` (named `resid` here; plain `residual` is taken by Mathlib). -/
def resid {n p : Nat} (X : Fin n → Fin p → ℚ) (y : Fin n → ℚ)
    (w : Fin p → ℚ) : Fin n → ℚ :=
  fun i => y i - matVec X w i

/-- The `j`-th entry of `X^T theta`: the correlation of column `j` with a
sample-indexed vector. -/
def colDot {n p : Nat} (X : Fin n → Fin p → ℚ) (theta : Fin n → ℚ)
    (j : Fin p) : ℚ :=
  ∑ i, X i j * theta i

/-- The L1 norm of a coefficient vector. -/
def l1norm {p : Nat} (w : Fin p → ℚ) : ℚ := ∑ j, |w j|

/-- The primal Lasso objective, from the source docstring:
`P(w) = (1/(2 n)) ||y - X w||^2 + alpha ||w||_1`. -/
def primal {n p : Nat} (X : Fin n → Fin p → ℚ) (y : Fin n → ℚ) (alpha : ℚ)
    (w : Fin p → ℚ) : ℚ :=
  dotv (resid X y w) (resid X y w) / (2 * (n : ℚ)) + alpha * l1norm w

/-- Modelled from the spec (section 4.2): dual feasibility
`|X^T theta|_inf <= alpha`. -/
def dualFeasible {n p : Nat} (X : Fin n → Fin p → ℚ) (alpha : ℚ)
    (theta : Fin n → ℚ) : Prop :=
  ∀ j, |colDot X theta j| ≤ alpha

/-- Modelled from the spec (section 4.2): the dual objective
`D(theta) = (1/2n)(||y||^2 - n^2 ||theta - y/n||^2)`. -/
def dualObj {n : Nat} (y : Fin n → ℚ) (theta : Fin n → ℚ) : ℚ :=
  (dotv y y - (n : ℚ) ^ 2 *
      dotv (fun i => theta i - y i / (n : ℚ)) (fun i => theta i - y i / (n : ℚ)))
    / (2 * (n : ℚ))

/-- Exchange lemma: `theta . (X w) = sum_j w_j (X_j . theta)`. -/
lemma dotv_matVec {n p : Nat} (X : Fin n → Fin p → ℚ) (theta : Fin n → ℚ)
    (w : Fin p → ℚ) :
    dotv theta (matVec X w) = ∑ j, w j * colDot X theta j := by
  unfold dotv matVec colDot
  simp only [Finset.mul_sum]
  rw [Finset.sum_comm]
  apply Finset.sum_congr rfl
  intro j _
  apply Finset.sum_congr rfl
  intro i _
  ring

/-- Splitting `theta . y` along `y = (y - X w) + X w`. -/
lemma dotv_theta_y {n p : Nat} (X : Fin n → Fin p → ℚ) (y : Fin n → ℚ)
    (theta : Fin n → ℚ) (w : Fin p → ℚ) :
    dotv theta y =
      dotv theta (resid X y w) + ∑ j, w j * colDot X theta j := by
  rw [← dotv_matVec]
  unfold dotv resid
  rw [← Finset.sum_add_distrib]
  apply Finset.sum_congr rfl
  intro i _
  ring

/-- Expanding the recentred dual norm:
`n^2 ||theta - y/n||^2 = n^2 ||theta||^2 - 2 n (theta . y) + ||y||^2`. -/
lemma dual_norm_expand {n : Nat} (hn : 0 < n) (y theta : Fin n → ℚ) :
    (n : ℚ) ^ 2 *
        dotv (fun i => theta i - y i / (n : ℚ))
          (fun i => theta i - y i / (n : ℚ)) =
      (n : ℚ) ^ 2 * dotv theta theta - 2 * (n : ℚ) * dotv theta y +
        dotv y y := by
  have hN : ((n : ℚ)) ≠ 0 := by
    exact_mod_cast Nat.pos_iff_ne_zero.mp hn
  unfold dotv
  rw [Finset.mul_sum, Finset.mul_sum, Finset.mul_sum]
  rw [← Finset.sum_sub_distrib, ← Finset.sum_add_distrib]
  apply Finset.sum_congr rfl
  intro i _
  field_simp
  ring

/-- Expanding the square `||r - n theta||^2`. -/
lemma shift_norm_expand {n : Nat} (r theta : Fin n → ℚ) :
    ∑ i, (r i - (n : ℚ) * theta i) ^ 2 =
      dotv r r - 2 * (n : ℚ) * dotv theta r + (n : ℚ) ^ 2 * dotv theta theta := by
  unfold dotv
  rw [Finset.mul_sum, Finset.mul_sum]
  rw [← Finset.sum_sub_distrib, ← Finset.sum_add_distrib]
  apply Finset.sum_congr rfl
  intro i _
  ring

/-- The duality-gap identity: for any `w` and any `theta`,
`P(w) - D(theta)` equals a sum of squares over samples plus the per-feature
slack `alpha |w_j| - w_j (X_j . theta)`. -/
lemma gap_identity {n p : Nat} (hn : 0 < n) (X : Fin n → Fin p → ℚ)
    (y : Fin n → ℚ) (alpha : ℚ) (theta : Fin n → ℚ) (w : Fin p → ℚ) :
    primal X y alpha w - dualObj y theta =
      (∑ i, (resid X y w i - (n : ℚ) * theta i) ^ 2) / (2 * (n : ℚ)) +
        ∑ j, (alpha * |w j| - w j * colDot X theta j) := by
  have hN : ((n : ℚ)) ≠ 0 := by
    exact_mod_cast Nat.pos_iff_ne_zero.mp hn
  unfold primal dualObj l1norm
  rw [dual_norm_expand hn y theta, shift_norm_expand (resid X y w) theta,
    dotv_theta_y X y theta w]
  rw [Finset.sum_sub_distrib, Finset.mul_sum]
  field_simp
  ring

/-- Weak duality: every dual-feasible `theta` bounds the primal objective
from below. -/
lemma weak_duality {n p : Nat} (hn : 0 < n) (X : Fin n → Fin p → ℚ)
    (y : Fin n → ℚ) (alpha : ℚ) (theta : Fin n → ℚ) (w : Fin p → ℚ)
    (hfeas : dualFeasible X alpha theta) :
    dualObj y theta ≤ primal X y alpha w := by
  have hid := gap_identity hn X y alpha theta w
  have hN : (0 : ℚ) < (n : ℚ) := by exact_mod_cast hn
  have h1 : (0 : ℚ) ≤
      (∑ i, (resid X y w i - (n : ℚ) * theta i) ^ 2) / (2 * (n : ℚ)) := by
    apply div_nonneg
    · exact Finset.sum_nonneg fun i _ => sq_nonneg _
    · linarith
  have h2 : (0 : ℚ) ≤ ∑ j, (alpha * |w j| - w j * colDot X theta j) := by
    apply Finset.sum_nonneg
    intro j _
    have ha : |w j| * |colDot X theta j| ≤ |w j| * alpha :=
      mul_le_mul_of_nonneg_left (hfeas j) (abs_nonneg _)
    have hb : w j * colDot X theta j ≤ |w j| * |colDot X theta j| := by
      rw [← abs_mul]
      exact le_abs_self _
    have hc : |w j| * alpha = alpha * |w j| := mul_comm _ _
    linarith
  linarith

/-! ### Concrete instances used by witnesses -/

/-- A 1-sample, 1-feature design matrix with entry 1. -/
def Xdemo : Fin 1 → Fin 1 → ℚ := fun _ _ => 1

/-- The zero response vector on one sample. -/
def yDemo : Fin 1 → ℚ := fun _ => 0

/-- The zero coefficient vector on one feature. -/
def wDemo : Fin 1 → ℚ := fun _ => 0

/-- The zero dual point on one sample. -/
def thetaDemo : Fin 1 → ℚ := fun _ => 0

/-- A competitor coefficient vector on one feature. -/
def vDemo : Fin 1 → ℚ := fun _ => 1

/-! ### Claim theorems -/

/-- Claim C2: `Lasso.path` is pure adapter glue — on every input it calls
`celer_path` exactly once, passing the instance's stored configuration
(`max_iter`, `gap_freq`, `max_epochs`, `p0`, `tol`, `prune`, `verbose`)
unchanged, and returns `celer_path`'s alphas, coefficient matrix and dual
gaps without modifying any of them. -/
theorem lasso_path_adapter_glue {M V : Type} (celer_path : CelerSolver M V)
    (self : LassoState) (X : M) (y : V) (alphas : List ℚ) :
    (Lasso.path celer_path self X y alphas).calls =
      [{ X := X, y := y, alphas := alphas,
         cfg := { max_iter := self.max_iter, gap_freq := self.gap_freq,
                  max_epochs := self.max_epochs, p0 := self.p0,
                  verbose := self.verbose, tol := self.tol,
                  prune := self.prune } }] ∧
    (Lasso.path celer_path self X y alphas).result.1 =
      (celer_path X y alphas (Lasso.celerConfig self)).1 ∧
    (Lasso.path celer_path self X y alphas).result.2.1 =
      (celer_path X y alphas (Lasso.celerConfig self)).2.1 ∧
    (Lasso.path celer_path self X y alphas).result.2.2.1 =
      (celer_path X y alphas (Lasso.celerConfig self)).2.2 :=
  ⟨rfl, rfl, rfl, rfl⟩

/-- Claim C7: for every solver behaviour and every input, the fourth
component of the 4-tuple returned by `Lasso.path` is the constant list
`[1]`. -/
theorem lasso_path_fourth_component_constant_one {M V : Type}
    (celer_path : CelerSolver M V) (self : LassoState) (X : M) (y : V)
    (alphas : List ℚ) :
    (Lasso.path celer_path self X y alphas).result.2.2.2 = [1] :=
  rfl

/-- Claim C1 counterexample: with a solver behaviour whose (spec-modelled)
outer-iteration count for the single alpha `1/2` is 2, `Lasso.path` still
returns `[1]` as its fourth component — which differs from the count actually
used — so the fourth component is not "the outer-iteration count actually
used". -/
theorem lasso_path_niter_counterexample :
    (Lasso.path twoIterBehavior.run
        (Lasso.init 1 100 10 50000 10 0 (1 / 1000000) 0) () ()
        [1 / 2]).result.2.2.2 = [1] ∧
    twoIterBehavior.outerIters () () [1 / 2]
        (Lasso.celerConfig (Lasso.init 1 100 10 50000 10 0 (1 / 1000000) 0)) =
      [2] ∧
    ([1] : List Nat) ≠ [2] :=
  ⟨rfl, rfl, by decide⟩

/-- Claim C1 (amended): for every design matrix, response vector and alpha
sequence, `Lasso.path` returns the coefficient matrix and per-alpha duality
gaps produced by `celer_path`, and never raises on non-convergence; its
fourth component is the constant list `[1]`, not the per-alpha
outer-iteration counts, and no per-alpha convergence flag is part of the
return value. -/
theorem lasso_path_amended_output_contract {M V : Type}
    (b : SolverBehavior M V) (self : LassoState) (X : M) (y : V)
    (alphas : List ℚ) :
    (Lasso.path b.run self X y alphas).result =
      ((b.run X y alphas (Lasso.celerConfig self)).1,
       (b.run X y alphas (Lasso.celerConfig self)).2.1,
       (b.run X y alphas (Lasso.celerConfig self)).2.2, [1]) :=
  rfl

/-- Claim C3: an invalid configuration — an alpha grid containing a negative
alpha, a non-positive `tol`, or an empty feature set — makes
constructing-then-invoking the solver fail before any solve begins: the
error surfaces to the caller and the count of coordinate-descent subproblem
solves performed is zero. -/
theorem lasso_invalid_config_rejected_before_solve {M V : Type}
    (core : CelerSolver M V) (nFeatures : Nat) (alpha : ℚ)
    (max_iter gap_freq max_epochs p0 verbose : Int) (tol : ℚ) (prune : Int)
    (X : M) (y : V) (alphas : List ℚ)
    (hbad : alphas.any (fun a => decide (a < 0)) = true ∨ tol ≤ 0 ∨
      nFeatures = 0) :
    exceptIsOk (Lasso.pathChecked core nFeatures
        (Lasso.init alpha max_iter gap_freq max_epochs p0 verbose tol prune)
        X y alphas).1 = false ∧
    (Lasso.pathChecked core nFeatures
        (Lasso.init alpha max_iter gap_freq max_epochs p0 verbose tol prune)
        X y alphas).2 = 0 := by
  by_cases h1 : alphas.any (fun a => decide (a < 0)) = true
  · simp [Lasso.pathChecked, celer_path_checked, h1, exceptIsOk]
  · by_cases h2 : tol ≤ 0
    · simp [Lasso.pathChecked, celer_path_checked, Lasso.celerConfig,
        Lasso.init, sklearnLassoSuper, h1, h2, exceptIsOk]
    · by_cases h3 : nFeatures = 0
      · simp [Lasso.pathChecked, celer_path_checked, Lasso.celerConfig,
          Lasso.init, sklearnLassoSuper, h1, h2, h3, exceptIsOk]
      · exfalso
        rcases hbad with h | h | h
        · exact h1 h
        · exact h2 h
        · exact h3 h

/-- Claim C3 witness: constructing a `Lasso` with `tol = -1` and invoking it
on a one-feature problem is rejected with zero solves performed. -/
theorem lasso_invalid_config_rejected_before_solve_witness :
    exceptIsOk (Lasso.pathChecked demoCore 1
        (Lasso.init 1 100 10 50000 10 0 (-1) 0) () () [1]).1 = false ∧
    (Lasso.pathChecked demoCore 1
        (Lasso.init 1 100 10 50000 10 0 (-1) 0) () () [1]).2 = 0 :=
  lasso_invalid_config_rejected_before_solve demoCore 1 1 100 10 50000 10 0
    (-1) 0 () () [1] (Or.inr (Or.inl (by norm_num)))

/-- Claim C4: two invocations of `Lasso.path` on the same `X`, `y`, `alphas`
whose configurations differ only in `verbose` return identical alphas,
coefficient matrices and duality gaps: with the solver modelled per the spec
(its numerical core never sees `verbose`), verbosity has zero effect on the
numerical results. -/
theorem lasso_path_verbose_no_numeric_effect {M V : Type}
    (core : M → V → List ℚ → NumConfig → CelerOut)
    (logOf : Int → CelerOut → List String) (self : LassoState) (v : Int)
    (X : M) (y : V) (alphas : List ℚ) :
    (Lasso.path
        (fun X y alphas cfg => (celer_path_logged core logOf X y alphas cfg).1)
        { self with verbose := v } X y alphas).result =
      (Lasso.path
        (fun X y alphas cfg => (celer_path_logged core logOf X y alphas cfg).1)
        self X y alphas).result :=
  rfl

/-- Claim C5: the wrapper is deterministic for fixed inputs — any two `Lasso`
instances whose stored configurations agree produce, run on identical `X`,
`y` and `alphas`, identical coefficient matrices, duality gaps and
iteration-count lists. -/
theorem lasso_path_deterministic {M V : Type} (celer_path : CelerSolver M V)
    (a b : LassoState)
    (h1 : a.max_iter = b.max_iter) (h2 : a.gap_freq = b.gap_freq)
    (h3 : a.max_epochs = b.max_epochs) (h4 : a.p0 = b.p0)
    (h5 : a.verbose = b.verbose) (h6 : a.tol = b.tol) (h7 : a.prune = b.prune)
    (X : M) (y : V) (alphas : List ℚ) :
    (Lasso.path celer_path a X y alphas).result =
      (Lasso.path celer_path b X y alphas).result := by
  have hcfg : Lasso.celerConfig a = Lasso.celerConfig b := by
    unfold Lasso.celerConfig
    rw [h1, h2, h3, h4, h5, h6, h7]
  simp only [Lasso.path, hcfg]

/-- Claim C5 witness: two runs from instances that agree on the whole solver
configuration (differing only in the unused `alpha` attribute) return the
same result on the same data. -/
theorem lasso_path_deterministic_witness :
    (Lasso.path demoCore (Lasso.init 1 100 10 50000 10 0 (1 / 1000000) 0)
        () () [1, 1 / 2]).result =
      (Lasso.path demoCore (Lasso.init 2 100 10 50000 10 0 (1 / 1000000) 0)
        () () [1, 1 / 2]).result :=
  lasso_path_deterministic demoCore
    (Lasso.init 1 100 10 50000 10 0 (1 / 1000000) 0)
    (Lasso.init 2 100 10 50000 10 0 (1 / 1000000) 0)
    rfl rfl rfl rfl rfl rfl rfl () () [1, 1 / 2]

/-- Claim C6: a coefficient vector returned with a duality-gap certificate at
most the tolerance is approximately optimal — for any dual-feasible `theta`
with `P(w) - D(theta) ≤ tol`, the primal objective at `w` exceeds the
objective at any competitor `v` by at most `tol`. -/
theorem lasso_gap_certifies_approx_optimal {n p : Nat} (hn : 0 < n)
    (X : Fin n → Fin p → ℚ) (y : Fin n → ℚ) (alpha tol : ℚ)
    (w : Fin p → ℚ) (theta : Fin n → ℚ) (v : Fin p → ℚ)
    (hfeas : dualFeasible X alpha theta)
    (hgap : primal X y alpha w - dualObj y theta ≤ tol) :
    primal X y alpha w ≤ primal X y alpha v + tol := by
  have h := weak_duality hn X y alpha theta v hfeas
  linarith

/-- Claim C6 witness: on the 1-sample, 1-feature instance with `y = 0`,
`w = 0` is certified optimal to tolerance 1 by the zero dual point, hence
within 1 of the objective at the competitor `v = 1`. -/
theorem lasso_gap_certifies_approx_optimal_witness :
    primal Xdemo yDemo 1 wDemo ≤ primal Xdemo yDemo 1 vDemo + 1 :=
  lasso_gap_certifies_approx_optimal Nat.one_pos Xdemo yDemo 1 1 wDemo
    thetaDemo vDemo
    (by
      intro j
      simp [colDot, Xdemo, thetaDemo])
    (by
      norm_num [primal, dualObj, dotv, resid, matVec, l1norm, Xdemo, yDemo,
        wDemo, thetaDemo])

/-- Claim C8: after construction with any argument values, `Lasso` and
`LassoCV` instances have `fit_intercept = false` and `return_n_iter = true`;
`LassoCV.__init__` overrides whatever `fit_intercept` value was passed; and
the only public operation defined on them, `path`, leaves the instance state
unchanged. -/
theorem lasso_fit_intercept_return_n_iter_invariant
    (alpha : ℚ) (max_iter gap_freq max_epochs p0 verbose : Int) (tol : ℚ)
    (prune : Int) (eps : ℚ) (n_alphas : Int) (alphas0 : Option (List ℚ))
    (fi : Bool) (cvMaxIter : Int) (cvTol : ℚ) (cv : Option Int)
    (cvVerbose cvGapFreq cvMaxEpochs cvP0 cvPrune : Int) (normalize : Bool)
    (precompute : String) {M V : Type} (celer_path : CelerSolver M V)
    (X : M) (y : V) (alphas : List ℚ) :
    (Lasso.init alpha max_iter gap_freq max_epochs p0 verbose tol
        prune).fit_intercept = false ∧
    (Lasso.init alpha max_iter gap_freq max_epochs p0 verbose tol
        prune).return_n_iter = true ∧
    (LassoCV.init eps n_alphas alphas0 fi cvMaxIter cvTol cv cvVerbose
        cvGapFreq cvMaxEpochs cvP0 cvPrune normalize
        precompute).fit_intercept = false ∧
    (LassoCV.init eps n_alphas alphas0 fi cvMaxIter cvTol cv cvVerbose
        cvGapFreq cvMaxEpochs cvP0 cvPrune normalize
        precompute).return_n_iter = true ∧
    (Lasso.path celer_path
        (Lasso.init alpha max_iter gap_freq max_epochs p0 verbose tol prune)
        X y alphas).post =
      Lasso.init alpha max_iter gap_freq max_epochs p0 verbose tol prune ∧
    (LassoCV.path celer_path
        (LassoCV.init eps n_alphas alphas0 fi cvMaxIter cvTol cv cvVerbose
          cvGapFreq cvMaxEpochs cvP0 cvPrune normalize precompute)
        X y alphas).post =
      LassoCV.init eps n_alphas alphas0 fi cvMaxIter cvTol cv cvVerbose
        cvGapFreq cvMaxEpochs cvP0 cvPrune normalize precompute :=
  ⟨rfl, rfl, rfl, rfl, rfl, rfl⟩

/-- Claim C9: a `Lasso` instance and a `LassoCV` instance whose stored
`max_iter`, `gap_freq`, `max_epochs`, `p0`, `verbose`, `tol` and `prune`
agree invoke the solver identically: the first three components of
`Lasso.path` equal the 3-tuple returned by `LassoCV.path` on every input. -/
theorem lasso_lassoCV_path_agree {M V : Type} (celer_path : CelerSolver M V)
    (a : LassoState) (b : LassoCVState)
    (h1 : a.max_iter = b.max_iter) (h2 : a.gap_freq = b.gap_freq)
    (h3 : a.max_epochs = b.max_epochs) (h4 : a.p0 = b.p0)
    (h5 : a.verbose = b.verbose) (h6 : a.tol = b.tol) (h7 : a.prune = b.prune)
    (X : M) (y : V) (alphas : List ℚ) :
    ((Lasso.path celer_path a X y alphas).result.1,
     (Lasso.path celer_path a X y alphas).result.2.1,
     (Lasso.path celer_path a X y alphas).result.2.2.1) =
      (LassoCV.path celer_path b X y alphas).result := by
  have hcfg : Lasso.celerConfig a = LassoCV.celerConfig b := by
    unfold Lasso.celerConfig LassoCV.celerConfig
    rw [h1, h2, h3, h4, h5, h6, h7]
  simp only [Lasso.path, LassoCV.path, hcfg]

/-- Claim C9 witness: concrete `Lasso` and `LassoCV` instances with equal
stored configurations produce agreeing path results on concrete data. -/
theorem lasso_lassoCV_path_agree_witness :
    ((Lasso.path demoCore (Lasso.init 1 100 10 50000 10 0 (1 / 1000000) 0)
        () () [1]).result.1,
     (Lasso.path demoCore (Lasso.init 1 100 10 50000 10 0 (1 / 1000000) 0)
        () () [1]).result.2.1,
     (Lasso.path demoCore (Lasso.init 1 100 10 50000 10 0 (1 / 1000000) 0)
        () () [1]).result.2.2.1) =
      (LassoCV.path demoCore
        (LassoCV.init (1 / 1000) 100 none false 100 (1 / 1000000) none 0 10
          50000 10 0 false "auto") () () [1]).result :=
  lasso_lassoCV_path_agree demoCore
    (Lasso.init 1 100 10 50000 10 0 (1 / 1000000) 0)
    (LassoCV.init (1 / 1000) 100 none false 100 (1 / 1000000) none 0 10 50000
      10 0 false "auto")
    rfl rfl rfl rfl rfl rfl rfl () () [1]
